import Mathlib

/-!
# othelp: span lifecycle helpers over a tracing SDK

Shallow embedding of `othelp.go`, `attr.go` and `init.go`.

Go interface values (`trace.Span`, `trace.Tracer`, `trace.TracerProvider`, the
SDK constructors used by `Init`) are embedded as records of state-passing
functions over an arbitrary SDK state `σ`.  A Go function with side effects on
the SDK becomes a function `σ → result × σ`.  Every theorem about the helpers is
therefore stated for every implementation of those interfaces; call sequences
are observed by wrapping an arbitrary implementation in a layer that appends
each call to a log.
-/

namespace Othelp

/-! ## Go values -/

/-- A non-nil Go `error` value: the text its `Error()` method returns and the
error it wraps (what `Unwrap()` returns), if any. -/
inductive GoError where
  | mk (msg : String) (cause : Option GoError)

/-- The method `Error()` of a non-nil error. -/
def GoError.Error : GoError → String
  | .mk msg _ => msg

/-- The method `Unwrap()` of a non-nil error. -/
def GoError.Unwrap : GoError → Option GoError
  | .mk _ cause => cause

/-- A Go value of interface type `error`: `none` is the nil error. -/
abbrev error := Option GoError

/-- `errors.New(text)`. -/
def errorsNew (text : String) : GoError := .mk text none

/-- A Go value of type `*error`: `none` is the nil pointer, `some a` points to
the error variable at address `a`. -/
abbrev ErrPtr := Option Nat

/-- The error variables of the program: what each address holds right now. -/
abbrev ErrMem := Nat → error

/-! ## The span interface (`trace.Span`, `codes.Code`) -/

/-- The status codes of `codes`: `Unset = 0`, `Error = 1`, `Ok = 2`. -/
inductive Code where
  | Unset
  | Error
  | Ok
deriving DecidableEq, Repr

/-- The three methods of `trace.Span` that the helpers call, as transformers of
the SDK state. -/
structure Span (σ : Type) where
  RecordError : GoError → σ → σ
  SetStatus : Code → String → σ → σ
  End : σ → σ

/-- `EndFunc`: called with a pointer to the error result; it reads the pointee
from the memory as it is when the call is made. -/
abbrev EndFunc (σ : Type) := ErrPtr → ErrMem → σ → σ

/-- `newEndFunc(span)`. -/
def newEndFunc {σ : Type} (span : Span σ) : EndFunc σ := fun errPtr mem s =>
  let s1 :=
    match errPtr with
    | some a =>
      match mem a with
      | some e => span.SetStatus Code.Error e.Error (span.RecordError e s)
      | none => span.SetStatus Code.Ok "" s
    | none => span.SetStatus Code.Ok "" s
  span.End s1

/-! ## Observing the calls made on a span -/

/-- One method call on a span. -/
inductive SpanCall where
  | RecordError (err : GoError)
  | SetStatus (code : Code) (description : String)
  | End

/-- The span `sp` with every call on it appended to a log, tagged with the
identifier `id` of the span. -/
def tracedSpan {σ : Type} (id : Nat) (sp : Span σ) : Span (σ × List (Nat × SpanCall)) where
  RecordError e w := (sp.RecordError e w.1, w.2 ++ [(id, SpanCall.RecordError e)])
  SetStatus c d w := (sp.SetStatus c d w.1, w.2 ++ [(id, SpanCall.SetStatus c d)])
  End w := (sp.End w.1, w.2 ++ [(id, SpanCall.End)])

/-! ## A recording span -/

/-- An event recorded on a span. -/
structure SpanEvent where
  name : String
  err : GoError

/-- Modelled from the spec: the state of a span handle (the SDK's recording
span is not part of the repository sources).  Section 3 lists name, attribute
set, status (unset/ok/error), status description, recorded error events and
end time; the end time is kept as the flag `ended`. -/
structure SpanState where
  name : String
  status : Code
  description : String
  events : List SpanEvent
  ended : Bool

/-- Modelled from the spec: the span operations of section 6 on a span state:
`record-error` adds an exception event carrying the error, `set-status` sets
status and description, `end` fixes the end of the span. -/
def recordingSpan : Span SpanState where
  RecordError e s := { s with events := s.events ++ [{ name := "exception", err := e }] }
  SetStatus c d s := { s with status := c, description := d }
  End s := { s with ended := true }

/-- Modelled from the spec: a span as it is right after creation: status unset,
no description, no events, not ended. -/
def SpanState.fresh (name : String) : SpanState :=
  { name := name, status := Code.Unset, description := "", events := [], ended := false }

/-! ## Attributes (`attribute.KeyValue`) and the builders of `attr.go` -/

/-- Signed machine integers of `w` bits. -/
def SInt (w : Nat) : Type := { i : Int // -(2 : Int) ^ (w - 1) ≤ i ∧ i < (2 : Int) ^ (w - 1) }

/-- The width of Go's `int`, which depends on the target. -/
inductive IntSize where
  | bits32
  | bits64

/-- Number of bits of `int`. -/
def IntSize.bits : IntSize → Nat
  | .bits32 => 32
  | .bits64 => 64

/-- Go's `int` on a target of the given size. -/
abbrev int (sz : IntSize) : Type := SInt sz.bits

/-- Go's `int64`. -/
abbrev int64 : Type := SInt 64

/-- Go's `float64`, identified by its IEEE-754 bit pattern; the helpers never
compute with it. -/
structure float64 where
  bits : Nat
  inRange : bits < 2 ^ 64

/-- The conversion `int64(v)` of an `int`: a widening that keeps the number. -/
def toInt64 {sz : IntSize} (v : int sz) : int64 :=
  ⟨v.val, by
    obtain ⟨i, h1, h2⟩ := v
    cases sz <;> simp only [IntSize.bits] at h1 h2 <;> constructor <;> norm_num at h1 h2 ⊢ <;> omega⟩

/-- Modelled from the spec: the value of an attribute, tagged with its type
(the SDK's `attribute` package is not part of the repository sources).  The
tags are those of `attribute.Type`; an `int` is stored as `INT64`. -/
inductive Value where
  | BOOL (b : Bool)
  | INT64 (i : int64)
  | FLOAT64 (f : float64)
  | STRING (s : String)
  | INT64SLICE (l : List int64)
  | STRINGSLICE (l : List String)

/-- Modelled from the spec: the type tags of attribute values. -/
inductive ValueType where
  | BOOL
  | INT64
  | FLOAT64
  | STRING
  | INT64SLICE
  | STRINGSLICE
deriving DecidableEq, Repr

/-- Modelled from the spec: the tag of a value (`Value.Type()`). -/
def Value.Type : Value → ValueType
  | .BOOL _ => ValueType.BOOL
  | .INT64 _ => ValueType.INT64
  | .FLOAT64 _ => ValueType.FLOAT64
  | .STRING _ => ValueType.STRING
  | .INT64SLICE _ => ValueType.INT64SLICE
  | .STRINGSLICE _ => ValueType.STRINGSLICE

/-- Modelled from the spec: the accessor for string values; `none` when the
value has another type. -/
def Value.AsString : Value → Option String
  | .STRING s => some s
  | _ => none

/-- Modelled from the spec: the accessor for integer values. -/
def Value.AsInt64 : Value → Option int64
  | .INT64 i => some i
  | _ => none

/-- Modelled from the spec: the accessor for floating-point values. -/
def Value.AsFloat64 : Value → Option float64
  | .FLOAT64 f => some f
  | _ => none

/-- Modelled from the spec: the accessor for boolean values. -/
def Value.AsBool : Value → Option Bool
  | .BOOL b => some b
  | _ => none

/-- Modelled from the spec: the accessor for string lists. -/
def Value.AsStringSlice : Value → Option (List String)
  | .STRINGSLICE l => some l
  | _ => none

/-- Modelled from the spec: the accessor for integer lists. -/
def Value.AsInt64Slice : Value → Option (List int64)
  | .INT64SLICE l => some l
  | _ => none

/-- Modelled from the spec: an attribute record, a key with a typed value. -/
structure KeyValue where
  Key : String
  Value : Value

/-- Modelled from the spec: `attribute.String`. -/
def attributeString (k v : String) : KeyValue := { Key := k, Value := Value.STRING v }

/-- Modelled from the spec: `attribute.Int64`. -/
def attributeInt64 (k : String) (v : int64) : KeyValue := { Key := k, Value := Value.INT64 v }

/-- Modelled from the spec: `attribute.Int`, which stores `int64(v)`. -/
def attributeInt {sz : IntSize} (k : String) (v : int sz) : KeyValue :=
  attributeInt64 k (toInt64 v)

/-- Modelled from the spec: `attribute.Float64`. -/
def attributeFloat64 (k : String) (v : float64) : KeyValue := { Key := k, Value := Value.FLOAT64 v }

/-- Modelled from the spec: `attribute.Bool`. -/
def attributeBool (k : String) (v : Bool) : KeyValue := { Key := k, Value := Value.BOOL v }

/-- Modelled from the spec: `attribute.StringSlice`. -/
def attributeStringSlice (k : String) (v : List String) : KeyValue :=
  { Key := k, Value := Value.STRINGSLICE v }

/-- Modelled from the spec: `attribute.IntSlice`, which stores each element as
`int64`. -/
def attributeIntSlice {sz : IntSize} (k : String) (v : List (int sz)) : KeyValue :=
  { Key := k, Value := Value.INT64SLICE (v.map toInt64) }

/-- `Str` creates a string attribute. -/
def Attr.Str (key value : String) : KeyValue :=
  attributeString key value

/-- `Int` creates an int attribute. -/
def Attr.Int {sz : IntSize} (key : String) (value : int sz) : KeyValue :=
  attributeInt key value

/-- `Int64` creates an int64 attribute. -/
def Attr.Int64 (key : String) (value : int64) : KeyValue :=
  attributeInt64 key value

/-- `Float64` creates a float64 attribute. -/
def Attr.Float64 (key : String) (value : float64) : KeyValue :=
  attributeFloat64 key value

/-- `Bool` creates a bool attribute. -/
def Attr.Bool (key : String) (value : Bool) : KeyValue :=
  attributeBool key value

/-- `Strs` creates a string slice attribute. -/
def Attr.Strs (key : String) (values : List String) : KeyValue :=
  attributeStringSlice key values

/-- `Ints` creates an int slice attribute. -/
def Attr.Ints {sz : IntSize} (key : String) (values : List (int sz)) : KeyValue :=
  attributeIntSlice key values

/-! ## Tracers (`othelp.go`) -/

/-- The span-start options the helpers pass: `trace.WithAttributes(attrs...)`. -/
inductive SpanStartOption where
  | WithAttributes (attrs : List KeyValue)

/-- The interface `trace.Tracer` of the SDK: `Start(ctx, spanName, opts...)`
returns a context and a span and may change the SDK state.  `κ` is
`context.Context`. -/
structure OTelTracer (σ κ : Type) where
  Start : κ → String → List SpanStartOption → σ → (κ × Span σ) × σ

/-- The interface `trace.TracerProvider` of the SDK: `Tracer(name, opts...)`.
`τ` is `trace.TracerOption`. -/
structure TracerProvider (σ κ τ : Type) where
  Tracer : String → List τ → σ → OTelTracer σ κ × σ

/-- `Tracer` wraps an OpenTelemetry tracer. -/
structure Tracer (σ κ : Type) where
  tracer : OTelTracer σ κ

/-- `otel.Tracer(name, opts...)`: the tracer of that name of the process-wide
provider `global`. -/
def otelTracer {σ κ τ : Type} (globalProvider : TracerProvider σ κ τ) (name : String) (opts : List τ) :
    σ → OTelTracer σ κ × σ :=
  globalProvider.Tracer name opts

/-- `NewTracer(name, opts...)`, with the process-wide provider as it is when the
call is made. -/
def NewTracer {σ κ τ : Type} (globalProvider : TracerProvider σ κ τ) (name : String) (opts : List τ) :
    σ → Tracer σ κ × σ := fun s =>
  let r := otelTracer globalProvider name opts s
  ({ tracer := r.1 }, r.2)

/-- `NewTracerWithProvider(name, tp, opts...)`. -/
def NewTracerWithProvider {σ κ τ : Type} (name : String) (tp : TracerProvider σ κ τ)
    (opts : List τ) : σ → Tracer σ κ × σ := fun s =>
  let r := tp.Tracer name opts s
  ({ tracer := r.1 }, r.2)

/-- The method `(*Tracer).Start(ctx, spanName, attrs...)`. -/
def Tracer.Start {σ κ : Type} (t : Tracer σ κ) (ctx : κ) (spanName : String)
    (attrs : List KeyValue) : σ → (κ × EndFunc σ) × σ := fun s =>
  let r := t.tracer.Start ctx spanName [SpanStartOption.WithAttributes attrs] s
  ((r.1.1, newEndFunc r.1.2), r.2)

/-- The method `(*Tracer).OTelTracer()`. -/
def Tracer.OTelTracer {σ κ : Type} (t : Tracer σ κ) : OTelTracer σ κ :=
  t.tracer

/-- The package-level `Start(ctx, spanName, attrs...)`, with the process-wide
provider as it is when the call is made. -/
def Start {σ κ τ : Type} (globalProvider : TracerProvider σ κ τ) (ctx : κ) (spanName : String)
    (attrs : List KeyValue) : σ → (κ × EndFunc σ) × σ := fun s =>
  let r0 := otelTracer globalProvider "" [] s
  let r := r0.1.Start ctx spanName [SpanStartOption.WithAttributes attrs] r0.2
  ((r.1.1, newEndFunc r.1.2), r.2)

/-! ## Observing the calls made on a tracer -/

/-- One entry of the log of an observed tracer: a span-creation request, or a
call on the span created by the request at position `id` of the log. -/
inductive TracerCall (κ : Type) where
  | Start (ctx : κ) (spanName : String) (opts : List SpanStartOption)
  | OnSpan (id : Nat) (call : SpanCall)

/-- The span `sp` created at position `id`, with every call on it logged. -/
def observedSpan {σ κ : Type} (id : Nat) (sp : Span σ) : Span (σ × List (TracerCall κ)) where
  RecordError e w := (sp.RecordError e w.1, w.2 ++ [TracerCall.OnSpan id (SpanCall.RecordError e)])
  SetStatus c d w := (sp.SetStatus c d w.1, w.2 ++ [TracerCall.OnSpan id (SpanCall.SetStatus c d)])
  End w := (sp.End w.1, w.2 ++ [TracerCall.OnSpan id SpanCall.End])

/-- The tracer `t` with every request to it, and every call on the spans it
hands out, appended to a log.  A span is identified by the position of the
request that created it. -/
def observedTracer {σ κ : Type} (t : OTelTracer σ κ) : OTelTracer (σ × List (TracerCall κ)) κ where
  Start ctx spanName opts w :=
    let r := t.Start ctx spanName opts w.1
    ((r.1.1, observedSpan w.2.length r.1.2), (r.2, w.2 ++ [TracerCall.Start ctx spanName opts]))

/-- Whether a log entry is a span-creation request. -/
def TracerCall.isStart {κ : Type} : TracerCall κ → Bool
  | .Start _ _ _ => true
  | .OnSpan _ _ => false

/-- Whether a log entry ends the span `id`. -/
def TracerCall.isEndOf {κ : Type} (id : Nat) : TracerCall κ → Bool
  | .OnSpan j SpanCall.End => decide (j = id)
  | _ => false

/-- Whether a log entry is a call on a span other than `id`. -/
def TracerCall.touchesOther {κ : Type} (id : Nat) : TracerCall κ → Bool
  | .OnSpan j _ => decide (j ≠ id)
  | .Start _ _ _ => false

/-! ## Bootstrap (`init.go`) -/

/-- `Config` holds the configuration for OTel initialization. -/
structure Config where
  ServiceName : String
  Exporter : String
  Endpoint : String
  Insecure : Bool

/-- The options `createExporter` passes to `otlptracegrpc.New`. -/
inductive OtlpOption where
  | WithEndpoint (endpoint : String)
  | WithInsecure

/-- The option `createExporter` passes to `stdouttrace.New`. -/
inductive StdoutOption where
  | WithPrettyPrint

/-- The option `Init` passes to `resource.New`. -/
inductive ResourceOption where
  | WithAttributes (attrs : List KeyValue)

/-- The options `Init` passes to `sdktrace.NewTracerProvider`. -/
inductive TracerProviderOption (Exp Res : Type) where
  | WithBatcher (e : Exp)
  | WithResource (r : Res)

/-- The propagators `Init` builds: `propagation.TraceContext{}`,
`propagation.Baggage{}` and `propagation.NewCompositeTextMapPropagator(...)`. -/
inductive TextMapPropagator where
  | TraceContext
  | Baggage
  | Composite (ps : List TextMapPropagator)

/-- The SDK functions `Init` and `createExporter` call, as state-passing
functions.  `Res`, `Exp` and `TP` are the SDK's resource, span exporter and
tracer provider; a constructor that can fail returns its value or its error
(the helpers look at the value only when the error is nil). -/
structure SDK (σ κ Res Exp TP : Type) where
  resourceNew : κ → List ResourceOption → σ → Except GoError Res × σ
  stdouttraceNew : List StdoutOption → σ → Except GoError Exp × σ
  otlptracegrpcNew : κ → List OtlpOption → σ → Except GoError Exp × σ
  NewTracerProvider : List (TracerProviderOption Exp Res) → σ → TP × σ
  SetTracerProvider : TP → σ → σ
  SetTextMapPropagator : TextMapPropagator → σ → σ
  Shutdown : TP → κ → σ → error × σ

/-- `ShutdownFunc` gracefully shuts down the tracer provider. -/
abbrev ShutdownFunc (σ κ : Type) := κ → σ → error × σ

/-- `fmt.Errorf(pre + "%w", err)`: the message is `pre` followed by the message
of `err`, and the result wraps `err`. -/
def fmtErrorfWrap (pre : String) (err : GoError) : GoError :=
  GoError.mk (pre ++ err.Error) (some err)

/-- The value of `semconv.ServiceNameKey`. -/
def ServiceNameKey : String := "service.name"

/-- `createExporter(ctx, cfg)`.  `q` is the rendering of a string by the verb
`%q` of `fmt`. -/
def createExporter {σ κ Res Exp TP : Type} (q : String → String) (sdk : SDK σ κ Res Exp TP)
    (ctx : κ) (cfg : Config) : σ → Except GoError Exp × σ := fun s =>
  if cfg.Exporter = "stdout" then
    sdk.stdouttraceNew [StdoutOption.WithPrettyPrint] s
  else if cfg.Exporter = "otlp" ∨ cfg.Exporter = "" then
    let endpoint := if cfg.Endpoint = "" then "localhost:4317" else cfg.Endpoint
    let opts := [OtlpOption.WithEndpoint endpoint]
    let opts := if cfg.Insecure = true then opts ++ [OtlpOption.WithInsecure] else opts
    sdk.otlptracegrpcNew ctx opts s
  else
    (Except.error (errorsNew
      ("unsupported exporter: " ++ q cfg.Exporter ++ " (use \"otlp\" or \"stdout\")")), s)

/-- `Init(ctx, cfg)`: the pair of results (shutdown function, error) and the
SDK state it leaves. -/
def Init {σ κ Res Exp TP : Type} (q : String → String) (sdk : SDK σ κ Res Exp TP)
    (ctx : κ) (cfg : Config) : σ → (Option (ShutdownFunc σ κ) × error) × σ := fun s =>
  if cfg.ServiceName = "" then
    ((none, some (errorsNew "othelp: ServiceName is required")), s)
  else
    match sdk.resourceNew ctx
        [ResourceOption.WithAttributes [attributeString ServiceNameKey cfg.ServiceName]] s with
    | (Except.error err, s1) =>
      ((none, some (fmtErrorfWrap "othelp: failed to create resource: " err)), s1)
    | (Except.ok res, s1) =>
      match createExporter q sdk ctx cfg s1 with
      | (Except.error err, s2) =>
        ((none, some (fmtErrorfWrap "othelp: failed to create exporter: " err)), s2)
      | (Except.ok exporter, s2) =>
        let r := sdk.NewTracerProvider
          [TracerProviderOption.WithBatcher exporter, TracerProviderOption.WithResource res] s2
        let tp := r.1
        let s4 := sdk.SetTracerProvider tp r.2
        let s5 := sdk.SetTextMapPropagator
          (TextMapPropagator.Composite [TextMapPropagator.TraceContext, TextMapPropagator.Baggage]) s4
        ((some (fun ctx1 => sdk.Shutdown tp ctx1), none), s5)

/-! ## Observing the calls made on the SDK during bootstrap -/

/-- One call on the SDK. -/
inductive SDKCall (κ Res Exp TP : Type) where
  | resourceNew (ctx : κ) (opts : List ResourceOption)
  | stdouttraceNew (opts : List StdoutOption)
  | otlptracegrpcNew (ctx : κ) (opts : List OtlpOption)
  | NewTracerProvider (opts : List (TracerProviderOption Exp Res))
  | SetTracerProvider (tp : TP)
  | SetTextMapPropagator (p : TextMapPropagator)
  | Shutdown (tp : TP) (ctx : κ)

/-- The SDK `sdk` with every call appended to a log. -/
def observedSDK {σ κ Res Exp TP : Type} (sdk : SDK σ κ Res Exp TP) :
    SDK (σ × List (SDKCall κ Res Exp TP)) κ Res Exp TP where
  resourceNew ctx opts w :=
    let r := sdk.resourceNew ctx opts w.1
    (r.1, (r.2, w.2 ++ [SDKCall.resourceNew ctx opts]))
  stdouttraceNew opts w :=
    let r := sdk.stdouttraceNew opts w.1
    (r.1, (r.2, w.2 ++ [SDKCall.stdouttraceNew opts]))
  otlptracegrpcNew ctx opts w :=
    let r := sdk.otlptracegrpcNew ctx opts w.1
    (r.1, (r.2, w.2 ++ [SDKCall.otlptracegrpcNew ctx opts]))
  NewTracerProvider opts w :=
    let r := sdk.NewTracerProvider opts w.1
    (r.1, (r.2, w.2 ++ [SDKCall.NewTracerProvider opts]))
  SetTracerProvider tp w := (sdk.SetTracerProvider tp w.1, w.2 ++ [SDKCall.SetTracerProvider tp])
  SetTextMapPropagator p w :=
    (sdk.SetTextMapPropagator p w.1, w.2 ++ [SDKCall.SetTextMapPropagator p])
  Shutdown tp ctx w :=
    let r := sdk.Shutdown tp ctx w.1
    (r.1, (r.2, w.2 ++ [SDKCall.Shutdown tp ctx]))

/-- Whether a call sets one of the two process-wide registrations. -/
def SDKCall.setsGlobal {κ Res Exp TP : Type} : SDKCall κ Res Exp TP → Bool
  | .SetTracerProvider _ => true
  | .SetTextMapPropagator _ => true
  | _ => false

/-- Whether a call constructs a resource, an exporter or a tracer provider. -/
def SDKCall.constructs {κ Res Exp TP : Type} : SDKCall κ Res Exp TP → Bool
  | .resourceNew _ _ => true
  | .stdouttraceNew _ => true
  | .otlptracegrpcNew _ _ => true
  | .NewTracerProvider _ => true
  | _ => false

/-- An SDK without state whose constructors succeed: a resource is the number
of options it was built from, an exporter is named after its kind, and a
provider is the number of its options. -/
def stubSDK : SDK Unit Unit Nat String Nat where
  resourceNew _ opts s := (Except.ok opts.length, s)
  stdouttraceNew _ s := (Except.ok "stdout", s)
  otlptracegrpcNew _ _ s := (Except.ok "otlp", s)
  NewTracerProvider opts s := (opts.length, s)
  SetTracerProvider _ s := s
  SetTextMapPropagator _ s := s
  Shutdown _ _ s := (none, s)

/-- Whether the text `value` occurs in the text `msg`. -/
def mentions (msg value : String) : Bool :=
  msg.toList.tails.any fun t => value.toList.isPrefixOf t

/-! ## Reading the logs -/

/-- Whether a span call is `End`. -/
def SpanCall.isEnd : SpanCall → Bool
  | .End => true
  | _ => false

/-- Whether a span call is `SetStatus`. -/
def SpanCall.isSetStatus : SpanCall → Bool
  | .SetStatus _ _ => true
  | _ => false

/-- Whether a span call is `RecordError`. -/
def SpanCall.isRecordError : SpanCall → Bool
  | .RecordError _ => true
  | _ => false

/-- The calls on a span made by one finalizer invocation with the pointer
`errPtr` under the memory `mem`, read off the log of an observed span. -/
def finalizerCalls (errPtr : ErrPtr) (mem : ErrMem) : List SpanCall :=
  ((newEndFunc (tracedSpan 0 (⟨fun _ u => u, fun _ _ u => u, fun u => u⟩ : Span Unit))
    errPtr mem ((), [])).2).map Prod.snd

/-- The `%q` rendering of a text that has no character to escape: the text
between double quotes. -/
def quotePlain (v : String) : String := "\"" ++ v ++ "\""

/-! ## The verb `%q` of `fmt` -/

/-- The hexadecimal digit of `n % 16`, as in `lowerhex` of `strconv`. -/
def lowerhex (n : Nat) : Char :=
  if n % 16 < 10 then Char.ofNat (48 + n % 16) else Char.ofNat (87 + n % 16)

/-- The `digits` lowest hexadecimal digits of `r`, the highest first. -/
def hexEscape (digits r : Nat) : List Char :=
  (List.range digits).reverse.map fun i => lowerhex (r / 16 ^ i)

/-- Go's `strconv.IsPrint(r)`: within Latin-1 the printable code points are
U+0020 to U+007E and U+00A1 to U+00FF without the soft hyphen U+00AD; above
U+00FF the library consults its tables, which are the parameter `table`. -/
def IsPrint (table : Char → Bool) (r : Char) : Bool :=
  if r.toNat ≤ 255 then
    if 32 ≤ r.toNat ∧ r.toNat ≤ 126 then true
    else if 161 ≤ r.toNat then decide (r.toNat ≠ 173)
    else false
  else table r

/-- Go's `appendEscapedRune` as `strconv.Quote` uses it (double quote as the
quote, all printable code points kept): what one character of the text
becomes. -/
def appendEscapedRune (table : Char → Bool) (r : Char) : List Char :=
  if r.toNat = 34 ∨ r.toNat = 92 then [Char.ofNat 92, r]
  else if IsPrint table r = true then [r]
  else if r.toNat = 7 then [Char.ofNat 92, 'a']
  else if r.toNat = 8 then [Char.ofNat 92, 'b']
  else if r.toNat = 12 then [Char.ofNat 92, 'f']
  else if r.toNat = 10 then [Char.ofNat 92, 'n']
  else if r.toNat = 13 then [Char.ofNat 92, 'r']
  else if r.toNat = 9 then [Char.ofNat 92, 't']
  else if r.toNat = 11 then [Char.ofNat 92, 'v']
  else if r.toNat < 32 ∨ r.toNat = 127 then Char.ofNat 92 :: 'x' :: hexEscape 2 r.toNat
  else if r.toNat < 65536 then Char.ofNat 92 :: 'u' :: hexEscape 4 r.toNat
  else Char.ofNat 92 :: 'U' :: hexEscape 8 r.toNat

/-- Go's `strconv.Quote(s)`, which is how the verb `%q` of `fmt` renders a
string: the text between double quotes, each character escaped as needed. -/
def Quote (table : Char → Bool) (s : String) : String :=
  String.mk (Char.ofNat 34 :: (s.toList.flatMap (appendEscapedRune table) ++ [Char.ofNat 34]))

/-- Whether `strconv.Quote` keeps every character of the text as it is: each is
printable and is neither a double quote nor a backslash. -/
def needsNoEscape (table : Char → Bool) (v : String) : Bool :=
  v.toList.all fun c => IsPrint table c && decide (c.toNat ≠ 34) && decide (c.toNat ≠ 92)

/-- The table of printable code points above U+00FF left empty; it is not
consulted for a text within Latin-1. -/
def emptyTable : Char → Bool := fun _ => false

/-! # Theorems -/

/-! ## The completion policy -/

/-- C1: for every span and every non-nil error `e`, the finalizer of
`newEndFunc` (and so the one returned by `Tracer.Start`), invoked with a
non-null pointer whose pointee at that moment is `e`, performs on the span
exactly `RecordError(e)`, `SetStatus(Error, e.Error())`, `End()` in this order;
on a recording span the span ends with status ERROR, description `e.Error()`
and one more exception event, which carries `e`.  Only the memory at invocation
time enters: `Tracer.Start` does not read it. -/
theorem newEndFunc_error {σ κ : Type} (span : Span σ) (a : Nat) (mem : ErrMem) (e : GoError)
    (s : σ) (id : Nat) (log : List (Nat × SpanCall)) (st : SpanState)
    (t : Tracer σ κ) (ctx : κ) (spanName : String) (attrs : List KeyValue)
    (h : mem a = some e) :
    newEndFunc span (some a) mem s
        = span.End (span.SetStatus Code.Error e.Error (span.RecordError e s))
      ∧ (newEndFunc (tracedSpan id span) (some a) mem (s, log)).2
        = log ++ [(id, SpanCall.RecordError e), (id, SpanCall.SetStatus Code.Error e.Error),
            (id, SpanCall.End)]
      ∧ (newEndFunc recordingSpan (some a) mem st).status = Code.Error
      ∧ (newEndFunc recordingSpan (some a) mem st).description = e.Error
      ∧ (newEndFunc recordingSpan (some a) mem st).events
        = st.events ++ [{ name := "exception", err := e }]
      ∧ (newEndFunc recordingSpan (some a) mem st).ended = true
      ∧ (newEndFunc recordingSpan (some a) mem (SpanState.fresh spanName)).events
        = [{ name := "exception", err := e }]
      ∧ (t.Start ctx spanName attrs s).1.2 (some a) mem (t.Start ctx spanName attrs s).2
        = newEndFunc (t.tracer.Start ctx spanName [SpanStartOption.WithAttributes attrs] s).1.2
            (some a) mem (t.tracer.Start ctx spanName [SpanStartOption.WithAttributes attrs] s).2 := by
  simp [newEndFunc, h, tracedSpan, recordingSpan, Tracer.Start, SpanState.fresh]

/-- C1 at a concrete input: the error variable at address 0 holds
`errors.New("boom")` when the finalizer runs. -/
theorem newEndFunc_error_witness :
    (newEndFunc recordingSpan (some 0) (fun _ => some (errorsNew "boom"))
        (SpanState.fresh "op")).status = Code.Error
      ∧ (newEndFunc recordingSpan (some 0) (fun _ => some (errorsNew "boom"))
        (SpanState.fresh "op")).description = "boom" :=
  let t : Tracer SpanState Unit :=
    { tracer := { Start := fun c n _ _ => ((c, recordingSpan), SpanState.fresh n) } }
  let r := newEndFunc_error recordingSpan 0 (fun _ => some (errorsNew "boom")) (errorsNew "boom")
    (SpanState.fresh "op") 0 [] (SpanState.fresh "op") t () "op" [] rfl
  ⟨r.2.2.1, r.2.2.2.1⟩

/-- C2: invoked with a null pointer, or with a pointer to a nil error, the
finalizer performs on the span exactly `SetStatus(Ok, "")` and `End()`, without
any `RecordError`; both cases have the same effect, and a recording span ends
with status OK, an empty description and no new event. -/
theorem newEndFunc_ok {σ : Type} (span : Span σ) (errPtr : ErrPtr) (mem : ErrMem)
    (s : σ) (id : Nat) (log : List (Nat × SpanCall)) (st : SpanState)
    (h : errPtr = none ∨ ∃ a, errPtr = some a ∧ mem a = none) :
    newEndFunc span errPtr mem s = span.End (span.SetStatus Code.Ok "" s)
      ∧ newEndFunc span errPtr mem s = newEndFunc span none mem s
      ∧ (newEndFunc (tracedSpan id span) errPtr mem (s, log)).2
        = log ++ [(id, SpanCall.SetStatus Code.Ok ""), (id, SpanCall.End)]
      ∧ (newEndFunc recordingSpan errPtr mem st).status = Code.Ok
      ∧ (newEndFunc recordingSpan errPtr mem st).description = ""
      ∧ (newEndFunc recordingSpan errPtr mem st).events = st.events
      ∧ (newEndFunc recordingSpan errPtr mem st).ended = true := by
  rcases h with h | ⟨a, h, hm⟩
  · simp [newEndFunc, h, tracedSpan, recordingSpan]
  · simp [newEndFunc, h, hm, tracedSpan, recordingSpan]

/-- C2 at a concrete input: a pointer to an error variable that holds nil. -/
theorem newEndFunc_ok_witness :
    (newEndFunc recordingSpan (some 0) (fun _ => none) (SpanState.fresh "op")).status = Code.Ok
      ∧ (newEndFunc recordingSpan (some 0) (fun _ => none) (SpanState.fresh "op")).events = [] :=
  let r := newEndFunc_ok recordingSpan (some 0) (fun _ => none) (SpanState.fresh "op") 0 []
    (SpanState.fresh "op") (Or.inr ⟨0, rfl, rfl⟩)
  ⟨r.2.2.2.1, r.2.2.2.2.2.1⟩

/-- C3: for every input (null pointer, pointer to nil, pointer to an error) one
invocation of the finalizer adds to the calls on the span a sequence that ends
with `End()`, holds exactly one `End()` and exactly one `SetStatus`, and the
`SetStatus` comes right before the final `End()`; the result is the span's
`End` applied to the result of a `SetStatus`. -/
theorem newEndFunc_status_before_end {σ : Type} (span : Span σ) (errPtr : ErrPtr)
    (mem : ErrMem) (s : σ) (id : Nat) (log : List (Nat × SpanCall)) :
    (∃ c d s0, newEndFunc span errPtr mem s = span.End (span.SetStatus c d s0))
      ∧ ∃ before c d,
          (newEndFunc (tracedSpan id span) errPtr mem (s, log)).2
            = log ++ (before ++ [SpanCall.SetStatus c d, SpanCall.End]).map (fun x => (id, x))
          ∧ (before ++ [SpanCall.SetStatus c d, SpanCall.End]).countP SpanCall.isEnd = 1
          ∧ (before ++ [SpanCall.SetStatus c d, SpanCall.End]).countP SpanCall.isSetStatus = 1
          ∧ (before ++ [SpanCall.SetStatus c d, SpanCall.End]).getLast? = some SpanCall.End
          ∧ before.all SpanCall.isRecordError = true := by
  rcases errPtr with _ | a
  · exact ⟨⟨Code.Ok, "", s, rfl⟩, [], Code.Ok, "", by simp [newEndFunc, tracedSpan], rfl, rfl,
      rfl, rfl⟩
  · rcases hm : mem a with _ | e
    · exact ⟨⟨Code.Ok, "", s, by simp [newEndFunc, hm]⟩, [], Code.Ok, "",
        by simp [newEndFunc, tracedSpan, hm], rfl, rfl, rfl, rfl⟩
    · exact ⟨⟨Code.Error, e.Error, span.RecordError e s, by simp [newEndFunc, hm]⟩,
        [SpanCall.RecordError e], Code.Error, e.Error,
        by simp [newEndFunc, tracedSpan, hm], rfl, rfl, rfl, rfl⟩

/-! ## Starting a span -/

/-- C4: for every underlying tracer, context, span name, attribute list and
error-slot argument, `Tracer.Start` followed by one invocation of the returned
finalizer makes exactly one span-creation request (the caller's context, the
name, and the attributes in the given order as the only option), returns the
context the underlying tracer returned, and ends the span of that request
exactly once; every span call it makes is on that span, and the underlying
tracer and span see the same calls as without observation. -/
theorem Tracer_Start_one_span {σ κ : Type} (t : OTelTracer σ κ) (ctx : κ) (spanName : String)
    (attrs : List KeyValue) (errPtr : ErrPtr) (mem : ErrMem) (s : σ)
    (log : List (TracerCall κ)) :
    ((Tracer.mk (observedTracer t)).Start ctx spanName attrs (s, log)).1.1
        = (t.Start ctx spanName [SpanStartOption.WithAttributes attrs] s).1.1
      ∧ ∃ added : List (TracerCall κ),
          (((Tracer.mk (observedTracer t)).Start ctx spanName attrs (s, log)).1.2 errPtr mem
              ((Tracer.mk (observedTracer t)).Start ctx spanName attrs (s, log)).2).2
            = log ++ added
          ∧ added = TracerCall.Start ctx spanName [SpanStartOption.WithAttributes attrs]
              :: (finalizerCalls errPtr mem).map (TracerCall.OnSpan log.length)
          ∧ added.countP TracerCall.isStart = 1
          ∧ added.countP (TracerCall.isEndOf log.length) = 1
          ∧ added.any (TracerCall.touchesOther log.length) = false
          ∧ added.getLast? = some (TracerCall.OnSpan log.length SpanCall.End)
          ∧ (((Tracer.mk (observedTracer t)).Start ctx spanName attrs (s, log)).1.2 errPtr mem
              ((Tracer.mk (observedTracer t)).Start ctx spanName attrs (s, log)).2).1
            = ((Tracer.mk t).Start ctx spanName attrs s).1.2 errPtr mem
                ((Tracer.mk t).Start ctx spanName attrs s).2 := by
  refine ⟨rfl, _, ?_, rfl, ?_⟩
  · rcases errPtr with _ | a
    · simp [Tracer.Start, observedTracer, observedSpan, newEndFunc, finalizerCalls, tracedSpan]
    · rcases hm : mem a with _ | e <;>
        simp [Tracer.Start, observedTracer, observedSpan, newEndFunc, finalizerCalls, tracedSpan,
          hm]
  · rcases errPtr with _ | a
    · simp [Tracer.Start, observedTracer, observedSpan, newEndFunc, finalizerCalls, tracedSpan,
        TracerCall.isStart, TracerCall.isEndOf, TracerCall.touchesOther]
    · rcases hm : mem a with _ | e <;>
        simp [Tracer.Start, observedTracer, observedSpan, newEndFunc, finalizerCalls, tracedSpan,
          hm, TracerCall.isStart, TracerCall.isEndOf, TracerCall.touchesOther]

/-- C9: the package-level `Start` does what `Start` does on the tracer built by
`NewTracer("")` without options: for every process-wide provider, SDK state,
context, span name and attribute list both ask the provider for its tracer named
`""`, issue the same span-creation request to it, and return the same context,
the same finalizer and the same SDK state; the finalizer is `newEndFunc` of the
span created.  Neither has an error among its results. -/
theorem Start_eq_NewTracer_Start {σ κ τ : Type} (globalProvider : TracerProvider σ κ τ) (ctx : κ)
    (spanName : String) (attrs : List KeyValue) (s : σ) :
    Start globalProvider ctx spanName attrs s
        = (NewTracer globalProvider "" [] s).1.Start ctx spanName attrs
            (NewTracer globalProvider "" [] s).2
      ∧ (Start globalProvider ctx spanName attrs s).1.1
        = (((globalProvider.Tracer "" [] s).1).Start ctx spanName
            [SpanStartOption.WithAttributes attrs] (globalProvider.Tracer "" [] s).2).1.1
      ∧ (Start globalProvider ctx spanName attrs s).1.2
        = newEndFunc (((globalProvider.Tracer "" [] s).1).Start ctx spanName
            [SpanStartOption.WithAttributes attrs] (globalProvider.Tracer "" [] s).2).1.2
      ∧ (Start globalProvider ctx spanName attrs s).2
        = (((globalProvider.Tracer "" [] s).1).Start ctx spanName
            [SpanStartOption.WithAttributes attrs] (globalProvider.Tracer "" [] s).2).2 :=
  ⟨rfl, rfl, rfl, rfl⟩

/-! ## Bootstrap -/

/-- A text that is built around `v` mentions `v`. -/
theorem mentions_mid (a v b : String) : mentions (a ++ v ++ b) v = true := by
  simp only [mentions, List.any_eq_true, List.mem_tails]
  refine ⟨v.toList ++ b.toList, ?_, ?_⟩
  · simp [String.toList]
  · simp

/-- What `createExporter` does on an observed SDK: the result and the state of
the SDK are those without observation, and the log grows by at most one call,
the construction of an exporter. -/
theorem createExporter_observed {σ κ Res Exp TP : Type} (q : String → String)
    (sdk : SDK σ κ Res Exp TP) (ctx : κ) (cfg : Config) (s : σ)
    (log : List (SDKCall κ Res Exp TP)) :
    ∃ added : List (SDKCall κ Res Exp TP),
      createExporter q (observedSDK sdk) ctx cfg (s, log)
        = ((createExporter q sdk ctx cfg s).1, ((createExporter q sdk ctx cfg s).2, log ++ added))
      ∧ added.any SDKCall.setsGlobal = false
      ∧ added.all SDKCall.constructs = true
      ∧ added.length ≤ 1 := by
  unfold createExporter
  by_cases h1 : cfg.Exporter = "stdout"
  · exact ⟨[SDKCall.stdouttraceNew [StdoutOption.WithPrettyPrint]], by simp [h1, observedSDK],
      rfl, rfl, by simp⟩
  · by_cases h2 : cfg.Exporter = "otlp" ∨ cfg.Exporter = ""
    · by_cases h3 : cfg.Insecure = true
      · exact ⟨[SDKCall.otlptracegrpcNew ctx
            [OtlpOption.WithEndpoint (if cfg.Endpoint = "" then "localhost:4317" else cfg.Endpoint),
              OtlpOption.WithInsecure]],
          by simp [h1, h2, h3, observedSDK], rfl, rfl, by simp⟩
      · exact ⟨[SDKCall.otlptracegrpcNew ctx
            [OtlpOption.WithEndpoint (if cfg.Endpoint = "" then "localhost:4317" else cfg.Endpoint)]],
          by simp [h1, h2, h3, observedSDK], rfl, rfl, by simp⟩
    · exact ⟨[], by simp [h1, h2], rfl, rfl, by simp⟩

/-- The four ways `Init` can go, with its results and the SDK state it leaves
in each. -/
theorem Init_cases {σ κ Res Exp TP : Type} (q : String → String) (sdk : SDK σ κ Res Exp TP)
    (ctx : κ) (cfg : Config) (s : σ) :
    (cfg.ServiceName = ""
        ∧ Init q sdk ctx cfg s = ((none, some (errorsNew "othelp: ServiceName is required")), s))
      ∨ (cfg.ServiceName ≠ "" ∧ ∃ err s1,
          sdk.resourceNew ctx
              [ResourceOption.WithAttributes [attributeString ServiceNameKey cfg.ServiceName]] s
            = (Except.error err, s1)
          ∧ Init q sdk ctx cfg s
            = ((none, some (fmtErrorfWrap "othelp: failed to create resource: " err)), s1))
      ∨ (cfg.ServiceName ≠ "" ∧ ∃ res s1 err s2,
          sdk.resourceNew ctx
              [ResourceOption.WithAttributes [attributeString ServiceNameKey cfg.ServiceName]] s
            = (Except.ok res, s1)
          ∧ createExporter q sdk ctx cfg s1 = (Except.error err, s2)
          ∧ Init q sdk ctx cfg s
            = ((none, some (fmtErrorfWrap "othelp: failed to create exporter: " err)), s2))
      ∨ (cfg.ServiceName ≠ "" ∧ ∃ res s1 exporter s2,
          sdk.resourceNew ctx
              [ResourceOption.WithAttributes [attributeString ServiceNameKey cfg.ServiceName]] s
            = (Except.ok res, s1)
          ∧ createExporter q sdk ctx cfg s1 = (Except.ok exporter, s2)
          ∧ Init q sdk ctx cfg s
            = ((some (fun ctx1 => sdk.Shutdown (sdk.NewTracerProvider
                  [TracerProviderOption.WithBatcher exporter,
                    TracerProviderOption.WithResource res] s2).1 ctx1), none),
                sdk.SetTextMapPropagator
                  (TextMapPropagator.Composite
                    [TextMapPropagator.TraceContext, TextMapPropagator.Baggage])
                  (sdk.SetTracerProvider (sdk.NewTracerProvider
                      [TracerProviderOption.WithBatcher exporter,
                        TracerProviderOption.WithResource res] s2).1
                    (sdk.NewTracerProvider
                      [TracerProviderOption.WithBatcher exporter,
                        TracerProviderOption.WithResource res] s2).2))) := by
  by_cases hn : cfg.ServiceName = ""
  · exact Or.inl ⟨hn, by simp [Init, hn]⟩
  · rcases hres : sdk.resourceNew ctx
        [ResourceOption.WithAttributes [attributeString ServiceNameKey cfg.ServiceName]] s
      with ⟨err | res, s1⟩
    · exact Or.inr (Or.inl ⟨hn, err, s1, rfl, by simp [Init, hn, hres]⟩)
    · rcases hexp : createExporter q sdk ctx cfg s1 with ⟨err | exporter, s2⟩
      · exact Or.inr (Or.inr (Or.inl ⟨hn, res, s1, err, s2, rfl, hexp,
          by simp [Init, hn, hres, hexp]⟩))
      · exact Or.inr (Or.inr (Or.inr ⟨hn, res, s1, exporter, s2, rfl, hexp,
          by simp [Init, hn, hres, hexp]⟩))

/-- C5: for every configuration with an empty `ServiceName`, whatever the other
fields, `Init` returns a nil shutdown function and the error
"othelp: ServiceName is required", and no call to the SDK is made: the log of
SDK calls and the SDK state are what they were. -/
theorem Init_empty_ServiceName {σ κ Res Exp TP : Type} (q : String → String)
    (sdk : SDK σ κ Res Exp TP) (ctx : κ) (cfg : Config) (s : σ)
    (log : List (SDKCall κ Res Exp TP)) (h : cfg.ServiceName = "") :
    Init q (observedSDK sdk) ctx cfg (s, log)
        = ((none, some (errorsNew "othelp: ServiceName is required")), (s, log))
      ∧ (errorsNew "othelp: ServiceName is required").Error = "othelp: ServiceName is required"
      ∧ Init q sdk ctx cfg s = ((none, some (errorsNew "othelp: ServiceName is required")), s) := by
  simp [Init, h, errorsNew, GoError.Error]

/-- C5 at a concrete input: an empty service name with the stdout exporter. -/
theorem Init_empty_ServiceName_witness :
    (Init quotePlain (observedSDK stubSDK) () ⟨"", "stdout", "", false⟩ ((), [])).2.2 = []
      ∧ (Init quotePlain (observedSDK stubSDK) () ⟨"", "stdout", "", false⟩ ((), [])).1.2.map
          GoError.Error = some "othelp: ServiceName is required" :=
  let r := Init_empty_ServiceName quotePlain stubSDK () ⟨"", "stdout", "", false⟩ () [] rfl
  ⟨by rw [r.1], by rw [r.1]; rfl⟩

/-- Replacing each element of a list by the list of that element alone and
joining the results gives the list back. -/
theorem flatMap_keep {α : Type} (f : α → List α) (l : List α) (h : ∀ c ∈ l, f c = [c]) :
    l.flatMap f = l := by
  induction l with
  | nil => rfl
  | cons a t ih =>
    rw [List.flatMap_cons, h a (List.mem_cons_self a t),
      ih fun c hc => h c (List.mem_cons_of_mem a hc)]
    rfl

/-- A text whose characters need no escape is quoted by putting it between
double quotes. -/
theorem Quote_of_needsNoEscape (table : Char → Bool) (v : String)
    (h : needsNoEscape table v = true) : Quote table v = "\"" ++ v ++ "\"" := by
  have hk : v.toList.flatMap (appendEscapedRune table) = v.toList := by
    apply flatMap_keep
    intro c hc
    simp only [needsNoEscape, List.all_eq_true, Bool.and_eq_true, decide_eq_true_eq] at h
    obtain ⟨⟨hp, h34⟩, h92⟩ := h c hc
    simp [appendEscapedRune, hp, h34, h92]
  apply String.ext
  simp only [Quote, hk, String.data_append]
  rfl

/-- What `Init` returns for an `Exporter` that is none of "otlp", "stdout" and
"": it always fails, and once the resource is built the error is the wrapped
error of `createExporter` and the SDK state is the one after the resource was
built. -/
theorem Init_unknown_exporter_result {σ κ Res Exp TP : Type} (q : String → String)
    (sdk : SDK σ κ Res Exp TP) (ctx : κ) (cfg : Config) (s : σ)
    (h1 : cfg.Exporter ≠ "otlp") (h2 : cfg.Exporter ≠ "stdout") (h3 : cfg.Exporter ≠ "") :
    (Init q sdk ctx cfg s).1.1 = none
      ∧ (Init q sdk ctx cfg s).1.2 ≠ none
      ∧ (cfg.ServiceName ≠ "" → ∀ res s1,
          sdk.resourceNew ctx
              [ResourceOption.WithAttributes [attributeString ServiceNameKey cfg.ServiceName]] s
            = (Except.ok res, s1) →
          Init q sdk ctx cfg s
            = ((none, some (fmtErrorfWrap "othelp: failed to create exporter: " (errorsNew
                ("unsupported exporter: " ++ q cfg.Exporter ++ " (use \"otlp\" or \"stdout\")")))),
              s1)) := by
  have hce : ∀ s1, createExporter q sdk ctx cfg s1
      = (Except.error (errorsNew
          ("unsupported exporter: " ++ q cfg.Exporter ++ " (use \"otlp\" or \"stdout\")")), s1) := by
    intro s1
    simp [createExporter, h1, h2, h3]
  rcases Init_cases q sdk ctx cfg s with ⟨hn, hI⟩ | ⟨hn, err, s1, hres, hI⟩ |
    ⟨hn, res, s1, err, s2, hres, hexp, hI⟩ | ⟨hn, res, s1, exporter, s2, hres, hexp, hI⟩
  · rw [hI]
    exact ⟨rfl, by simp, fun hne => absurd hn hne⟩
  · rw [hI]
    refine ⟨rfl, by simp, fun _ res s1' h => ?_⟩
    rw [hres] at h
    simp at h
  · rw [hI]
    refine ⟨rfl, by simp, fun _ res' s1' h => ?_⟩
    rw [hres] at h
    rw [hce s1] at hexp
    simp only [Prod.mk.injEq, Except.ok.injEq, Except.error.injEq] at h hexp
    obtain ⟨-, rfl⟩ := h
    obtain ⟨rfl, rfl⟩ := hexp
    rfl
  · rw [hce s1] at hexp
    simp at hexp

/-- C6 as stated fails, in two ways.  With an empty `ServiceName` and the
exporter "kafka", `Init` fails with "othelp: ServiceName is required", which
does not mention the exporter value.  With the service "svc" and the exporter
"otlp" followed by a newline, the message of the error holds the value as `%q`
renders it, with the newline escaped, and the value itself does not occur in
it. -/
theorem Init_unknown_exporter_unnamed :
    (("kafka" : String) ≠ "otlp" ∧ ("kafka" : String) ≠ "stdout" ∧ ("kafka" : String) ≠ ""
        ∧ (Init (Quote emptyTable) stubSDK () ⟨"", "kafka", "", false⟩ ()).1.2.map GoError.Error
          = some "othelp: ServiceName is required"
        ∧ mentions "othelp: ServiceName is required" "kafka" = false)
      ∧ (("otlp\n" : String) ≠ "otlp" ∧ ("otlp\n" : String) ≠ "stdout" ∧ ("otlp\n" : String) ≠ ""
        ∧ (Init (Quote emptyTable) stubSDK () ⟨"svc", "otlp\n", "", false⟩ ()).1.2.map
            GoError.Error
          = some ("othelp: failed to create exporter: unsupported exporter: \"otlp\\n\""
              ++ " (use \"otlp\" or \"stdout\")")
        ∧ mentions ("othelp: failed to create exporter: unsupported exporter: \"otlp\\n\""
              ++ " (use \"otlp\" or \"stdout\")") "otlp\n" = false) := by
  decide

/-- C6, amended: for every configuration whose `Exporter` is none of "otlp",
"stdout" and "", `Init` fails: it returns a nil shutdown function and a non-nil
error.  When moreover `ServiceName` is not empty and the resource is built, the
message of the error is "othelp: failed to create exporter: unsupported
exporter: " followed by the `Exporter` value as `strconv.Quote` (the verb `%q`)
renders it and by " (use "otlp" or "stdout")", and no exporter is constructed;
when every character of the value is printable and is neither a double quote
nor a backslash, that rendering is the value between double quotes, so the
message names the value itself. -/
theorem Init_unknown_exporter {σ κ Res Exp TP : Type} (table : Char → Bool)
    (sdk : SDK σ κ Res Exp TP) (ctx : κ) (cfg : Config) (s : σ)
    (h1 : cfg.Exporter ≠ "otlp") (h2 : cfg.Exporter ≠ "stdout") (h3 : cfg.Exporter ≠ "") :
    (Init (Quote table) sdk ctx cfg s).1.1 = none
      ∧ (Init (Quote table) sdk ctx cfg s).1.2 ≠ none
      ∧ (cfg.ServiceName ≠ "" → ∀ res s1,
          sdk.resourceNew ctx
              [ResourceOption.WithAttributes [attributeString ServiceNameKey cfg.ServiceName]] s
            = (Except.ok res, s1) →
          ∃ e : GoError,
            (Init (Quote table) sdk ctx cfg s).1.2 = some e
              ∧ e.Error = "othelp: failed to create exporter: unsupported exporter: "
                  ++ Quote table cfg.Exporter ++ " (use \"otlp\" or \"stdout\")"
              ∧ (Init (Quote table) sdk ctx cfg s).2 = s1
              ∧ (needsNoEscape table cfg.Exporter = true →
                  Quote table cfg.Exporter = "\"" ++ cfg.Exporter ++ "\""
                    ∧ mentions e.Error cfg.Exporter = true)) := by
  obtain ⟨hnil, herr, hmsg⟩ := Init_unknown_exporter_result (Quote table) sdk ctx cfg s h1 h2 h3
  refine ⟨hnil, herr, fun hn res s1 hres => ?_⟩
  have hI := hmsg hn res s1 hres
  have he : (fmtErrorfWrap "othelp: failed to create exporter: " (errorsNew
      ("unsupported exporter: " ++ Quote table cfg.Exporter
        ++ " (use \"otlp\" or \"stdout\")"))).Error
      = "othelp: failed to create exporter: unsupported exporter: "
          ++ Quote table cfg.Exporter ++ " (use \"otlp\" or \"stdout\")" := by
    have hlit : "othelp: failed to create exporter: " ++ "unsupported exporter: "
        = "othelp: failed to create exporter: unsupported exporter: " := by decide
    simp only [fmtErrorfWrap, errorsNew, GoError.Error]
    rw [← hlit]
    simp only [String.append_assoc]
  refine ⟨_, by rw [hI], he, by rw [hI], fun hplain => ?_⟩
  have hq := Quote_of_needsNoEscape table cfg.Exporter hplain
  refine ⟨hq, ?_⟩
  rw [he, hq]
  have := mentions_mid ("othelp: failed to create exporter: unsupported exporter: " ++ "\"")
    cfg.Exporter ("\"" ++ " (use \"otlp\" or \"stdout\")")
  simpa only [String.append_assoc] using this

/-- C6 amended, at a concrete input: the service "svc" with the exporter
"kafka". -/
theorem Init_unknown_exporter_witness :
    ∃ e : GoError,
      (Init (Quote emptyTable) stubSDK () ⟨"svc", "kafka", "", false⟩ ()).1.2 = some e
        ∧ e.Error = "othelp: failed to create exporter: unsupported exporter: \"kafka\""
            ++ " (use \"otlp\" or \"stdout\")"
        ∧ mentions e.Error "kafka" = true := by
  obtain ⟨e, hres, hmsg, -, hplain⟩ :=
    (Init_unknown_exporter emptyTable stubSDK () ⟨"svc", "kafka", "", false⟩ ()
      (by decide) (by decide) (by decide)).2.2 (by decide) 1 () rfl
  exact ⟨e, hres, by rw [hmsg]; decide, (hplain (by decide)).2⟩

/-- C7: exporter selection applies the documented defaults, for every SDK:
`Exporter == ""` behaves as `Exporter == "otlp"`; on the OTLP path the endpoint
option is "localhost:4317" for an empty `Endpoint` and the `Endpoint` itself
otherwise; the insecure option follows the endpoint option when `Insecure` is
true and is absent when it is false; with "stdout" the console exporter is
built with pretty printing, whatever `Endpoint` and `Insecure` are. -/
theorem createExporter_defaults {σ κ Res Exp TP : Type} (q : String → String)
    (sdk : SDK σ κ Res Exp TP) (ctx : κ) (name ep ep2 : String) (ins ins2 : Bool) (s : σ) :
    createExporter q sdk ctx ⟨name, "", ep, ins⟩ s
        = createExporter q sdk ctx ⟨name, "otlp", ep, ins⟩ s
      ∧ createExporter q sdk ctx ⟨name, "otlp", ep, true⟩ s
        = sdk.otlptracegrpcNew ctx
            [OtlpOption.WithEndpoint (if ep = "" then "localhost:4317" else ep),
              OtlpOption.WithInsecure] s
      ∧ createExporter q sdk ctx ⟨name, "otlp", ep, false⟩ s
        = sdk.otlptracegrpcNew ctx
            [OtlpOption.WithEndpoint (if ep = "" then "localhost:4317" else ep)] s
      ∧ createExporter q sdk ctx ⟨name, "otlp", "", false⟩ s
        = sdk.otlptracegrpcNew ctx [OtlpOption.WithEndpoint "localhost:4317"] s
      ∧ createExporter q sdk ctx ⟨name, "otlp", "", true⟩ s
        = sdk.otlptracegrpcNew ctx
            [OtlpOption.WithEndpoint "localhost:4317", OtlpOption.WithInsecure] s
      ∧ createExporter q sdk ctx ⟨name, "stdout", ep, ins⟩ s
        = sdk.stdouttraceNew [StdoutOption.WithPrettyPrint] s
      ∧ createExporter q sdk ctx ⟨name, "stdout", ep, ins⟩ s
        = createExporter q sdk ctx ⟨name, "stdout", ep2, ins2⟩ s := by
  have h : ¬ (("otlp" : String) = "stdout") := by decide
  have h0 : ¬ (("" : String) = "stdout") := by decide
  simp [createExporter, h, h0]

/-- C8: each builder returns, for every key (the empty key included) and every
value of its type, a record with that key, whose value has the tag of the
builder and is read back by the accessor of that type: the value itself, for
`Int` and `Ints` the value widened to `int64` (the same number), for the list
builders the same elements in the same order. -/
theorem builders_read_back (sz : IntSize) (k sv : String) (iv : int sz) (lv : int64)
    (fv : float64) (bv : Bool) (ss : List String) (is : List (int sz)) :
    ((Attr.Str k sv).Key = k ∧ (Attr.Str k sv).Value.Type = ValueType.STRING
        ∧ (Attr.Str k sv).Value.AsString = some sv)
      ∧ ((Attr.Int k iv).Key = k ∧ (Attr.Int k iv).Value.Type = ValueType.INT64
        ∧ (Attr.Int k iv).Value.AsInt64 = some (toInt64 iv) ∧ (toInt64 iv).val = iv.val)
      ∧ ((Attr.Int64 k lv).Key = k ∧ (Attr.Int64 k lv).Value.Type = ValueType.INT64
        ∧ (Attr.Int64 k lv).Value.AsInt64 = some lv)
      ∧ ((Attr.Float64 k fv).Key = k ∧ (Attr.Float64 k fv).Value.Type = ValueType.FLOAT64
        ∧ (Attr.Float64 k fv).Value.AsFloat64 = some fv)
      ∧ ((Attr.Bool k bv).Key = k ∧ (Attr.Bool k bv).Value.Type = ValueType.BOOL
        ∧ (Attr.Bool k bv).Value.AsBool = some bv)
      ∧ ((Attr.Strs k ss).Key = k ∧ (Attr.Strs k ss).Value.Type = ValueType.STRINGSLICE
        ∧ (Attr.Strs k ss).Value.AsStringSlice = some ss)
      ∧ ((Attr.Ints k is).Key = k ∧ (Attr.Ints k is).Value.Type = ValueType.INT64SLICE
        ∧ (Attr.Ints k is).Value.AsInt64Slice = some (is.map toInt64)
        ∧ (is.map toInt64).map Subtype.val = is.map Subtype.val)
      ∧ (Attr.Str "" sv).Key = "" := by
  refine ⟨⟨rfl, rfl, rfl⟩, ⟨rfl, rfl, rfl, rfl⟩, ⟨rfl, rfl, rfl⟩, ⟨rfl, rfl, rfl⟩, ⟨rfl, rfl, rfl⟩,
    ⟨rfl, rfl, rfl⟩, ⟨rfl, rfl, rfl, ?_⟩, rfl⟩
  rw [List.map_map]
  rfl

/-- C10: `Init` is atomic with respect to the process-wide registrations.  When
it returns a non-nil error the shutdown function is nil and none of the SDK
calls it made sets the tracer provider or the propagator.  When it returns a
nil error its last three SDK calls are: the construction of a tracer provider,
`SetTracerProvider` of that provider, and `SetTextMapPropagator` of the
composite of trace context and baggage; no earlier call sets either; and the
shutdown function is non-nil and calls `Shutdown` on that provider. -/
theorem Init_atomic {σ κ Res Exp TP : Type} (q : String → String)
    (sdk : SDK σ κ Res Exp TP) (ctx : κ) (cfg : Config) (s : σ)
    (log : List (SDKCall κ Res Exp TP)) :
    ((Init q (observedSDK sdk) ctx cfg (s, log)).1.2 ≠ none →
        (Init q (observedSDK sdk) ctx cfg (s, log)).1.1 = none
          ∧ ∃ added : List (SDKCall κ Res Exp TP),
              (Init q (observedSDK sdk) ctx cfg (s, log)).2.2 = log ++ added
              ∧ added.any SDKCall.setsGlobal = false)
      ∧ ((Init q (observedSDK sdk) ctx cfg (s, log)).1.2 = none →
          ∃ (added : List (SDKCall κ Res Exp TP)) (exporter : Exp) (res : Res) (s2 : σ),
            (Init q (observedSDK sdk) ctx cfg (s, log)).2.2
                = log ++ added
                  ++ [SDKCall.NewTracerProvider [TracerProviderOption.WithBatcher exporter,
                        TracerProviderOption.WithResource res],
                      SDKCall.SetTracerProvider (sdk.NewTracerProvider
                        [TracerProviderOption.WithBatcher exporter,
                          TracerProviderOption.WithResource res] s2).1,
                      SDKCall.SetTextMapPropagator (TextMapPropagator.Composite
                        [TextMapPropagator.TraceContext, TextMapPropagator.Baggage])]
              ∧ added.any SDKCall.setsGlobal = false
              ∧ (Init q (observedSDK sdk) ctx cfg (s, log)).1.1
                = some (fun ctx1 => (observedSDK sdk).Shutdown (sdk.NewTracerProvider
                        [TracerProviderOption.WithBatcher exporter,
                          TracerProviderOption.WithResource res] s2).1 ctx1)) := by
  rcases Init_cases q (observedSDK sdk) ctx cfg (s, log) with ⟨_, hI⟩ | ⟨_, err, s1, hres, hI⟩ |
    ⟨_, res, s1, err, s2, hres, hexp, hI⟩ | ⟨_, res, s1, exporter, s2, hres, hexp, hI⟩
  · rw [hI]
    exact ⟨fun _ => ⟨rfl, [], by simp, rfl⟩, fun h => by simp at h⟩
  · rw [hI]
    refine ⟨fun _ => ⟨rfl, [SDKCall.resourceNew ctx
      [ResourceOption.WithAttributes [attributeString ServiceNameKey cfg.ServiceName]]], ?_, rfl⟩,
      fun h => by simp at h⟩
    have h2 := congrArg (fun x => x.2.2) hres
    simpa [observedSDK] using h2.symm
  · rw [hI]
    have h2 := congrArg (fun x => x.2.2) hres
    simp only [observedSDK] at h2
    obtain ⟨added, hce, hg, -, -⟩ := createExporter_observed q sdk ctx cfg s1.1 s1.2
    rw [hexp] at hce
    have h3 := congrArg (fun x => x.2.2) hce
    simp only at h3
    refine ⟨fun _ => ⟨rfl, SDKCall.resourceNew ctx
      [ResourceOption.WithAttributes [attributeString ServiceNameKey cfg.ServiceName]] :: added,
      ?_, by simpa [SDKCall.setsGlobal] using hg⟩, fun h => by simp at h⟩
    rw [h3, ← h2]
    simp
  · rw [hI]
    have h2 := congrArg (fun x => x.2.2) hres
    simp only [observedSDK] at h2
    obtain ⟨added, hce, hg, -, -⟩ := createExporter_observed q sdk ctx cfg s1.1 s1.2
    rw [hexp] at hce
    have h3 := congrArg (fun x => x.2.2) hce
    simp only at h3
    refine ⟨fun h => by simp at h, fun _ => ⟨SDKCall.resourceNew ctx
      [ResourceOption.WithAttributes [attributeString ServiceNameKey cfg.ServiceName]] :: added,
      exporter, res, s2.1, ?_, by simpa [SDKCall.setsGlobal] using hg, rfl⟩⟩
    simp only [observedSDK]
    rw [h3, ← h2]
    simp

/-- C10 at concrete inputs: a bootstrap that succeeds (service "svc", stdout
exporter) sets both registrations as its last calls, and one that fails (empty
service name) makes no call. -/
theorem Init_atomic_witness :
    (∃ (added : List (SDKCall Unit Nat String Nat)) (exporter : String) (res : Nat) (s2 : Unit),
        (Init quotePlain (observedSDK stubSDK) () ⟨"svc", "stdout", "", false⟩ ((), [])).2.2
            = [] ++ added
              ++ [SDKCall.NewTracerProvider [TracerProviderOption.WithBatcher exporter,
                    TracerProviderOption.WithResource res],
                  SDKCall.SetTracerProvider (stubSDK.NewTracerProvider
                    [TracerProviderOption.WithBatcher exporter,
                      TracerProviderOption.WithResource res] s2).1,
                  SDKCall.SetTextMapPropagator (TextMapPropagator.Composite
                    [TextMapPropagator.TraceContext, TextMapPropagator.Baggage])]
          ∧ added.any SDKCall.setsGlobal = false
          ∧ (Init quotePlain (observedSDK stubSDK) () ⟨"svc", "stdout", "", false⟩ ((), [])).1.1
            = some (fun ctx1 => (observedSDK stubSDK).Shutdown (stubSDK.NewTracerProvider
                    [TracerProviderOption.WithBatcher exporter,
                      TracerProviderOption.WithResource res] s2).1 ctx1))
      ∧ (Init quotePlain (observedSDK stubSDK) () ⟨"", "stdout", "", false⟩ ((), [])).1.1 = none :=
  ⟨(Init_atomic quotePlain stubSDK () ⟨"svc", "stdout", "", false⟩ () []).2 rfl,
    ((Init_atomic quotePlain stubSDK () ⟨"", "stdout", "", false⟩ () []).1 (by simp [Init])).1⟩

end Othelp
